import Mathlib

/-!
# DS2438 driver (libraries/OneWire/DS2438.cpp)

A shallow embedding of the DS2438 one-wire driver.  The driver talks to an
external bus object (`_wire`) and to the host timing primitive `delay`; both
are collected in a record of operations `Host σ` over an arbitrary bus state
`σ`, and every driver method is a state-passing function over that record.

Two hosts are defined: a scripted host, which answers every `read()` from a
script and records every call in a trace, and a simulated DS2438 device.
-/

/-- A byte, the C type uint8_t. -/
abbrev Byte := Fin 256

/-- A one-wire ROM address, the array behind the driver field `_deviceAddress`. -/
abbrev Addr := List Byte

/-- The bus operations the driver calls on `_wire` (reset, select, write with its
power flag, read) together with the host function `delay`, over a bus state `σ`. -/
structure Host (σ : Type) where
  reset : σ → σ
  select : Addr → σ → σ
  write : Byte → Byte → σ → σ
  read : σ → Byte × σ
  delay : Nat → σ → σ

/-- The function command codes of DS2438.h.  The header is not part of the
sources, so the six codes are a parameter of the driver. -/
structure Commands where
  WRITESCRATCH : Byte
  READSCRATCH : Byte
  COPYSCRATCH : Byte
  RECALLSCRATCH : Byte
  CONVERTV : Byte
  CONVERTT : Byte
  deriving DecidableEq

/-- The driver object: the bus it points to, the device address and the
parasite power flag. -/
structure ds2438 (σ : Type) where
  _wire : σ
  _deviceAddress : Addr
  _parasite : Byte

namespace ds2438

variable {σ : Type}

/-- Source lines 35-61: write `config` to block 0 of the scratchpad, read one byte
back, and only when it equals `config` copy the scratchpad and wait 20 ms. -/
def writeSetup (H : Host σ) (cmds : Commands) (self : ds2438 σ) (config : Byte) :
    Bool × ds2438 σ :=
  let w := H.reset self._wire
  let w := H.select self._deviceAddress w
  let w := H.write cmds.WRITESCRATCH 0 w
  let w := H.write 0x00 0 w
  let w := H.write config 0 w
  let w := H.reset w
  let w := H.select self._deviceAddress w
  let w := H.write cmds.READSCRATCH 0 w
  let w := H.write 0x00 0 w
  let r := H.read w
  let compare := r.1
  let w := r.2
  if compare ≠ config then (false, { self with _wire := w })
  else
    let w := H.reset w
    let w := H.select self._deviceAddress w
    let w := H.write cmds.COPYSCRATCH 0 w
    let w := H.write 0x00 0 w
    let w := H.delay 20 w
    (true, { self with _wire := w })

end ds2438

/-- The C array type ScratchPad of DS2438.h: the eight bytes of one scratchpad page. -/
abbrev ScratchPad := Fin 8 → Byte

/-- Modelled from the spec: the scratchpad offsets are declared in DS2438.h, which is
not part of the sources; section 6 of the specification gives STATUS(0), TEMP_LSB(1),
TEMP_MSB(2), VOLT_LSB(3), VOLT_MSB(4), CURR_LSB(5), CURR_MSB(6), THRESH(7). -/
def STATUS : Fin 8 := 0

/-- Modelled from the spec: scratchpad offset TEMP_LSB(1), declared in DS2438.h. -/
def TEMP_LSB : Fin 8 := 1

/-- Modelled from the spec: scratchpad offset TEMP_MSB(2), declared in DS2438.h. -/
def TEMP_MSB : Fin 8 := 2

/-- Modelled from the spec: scratchpad offset VOLT_LSB(3), declared in DS2438.h. -/
def VOLT_LSB : Fin 8 := 3

/-- Modelled from the spec: scratchpad offset VOLT_MSB(4), declared in DS2438.h. -/
def VOLT_MSB : Fin 8 := 4

/-- Modelled from the spec: scratchpad offset CURR_LSB(5), declared in DS2438.h. -/
def CURR_LSB : Fin 8 := 5

/-- Modelled from the spec: scratchpad offset CURR_MSB(6), declared in DS2438.h. -/
def CURR_MSB : Fin 8 := 6

/-- Modelled from the spec: scratchpad offset THRESH(7), declared in DS2438.h. -/
def THRESH : Fin 8 := 7

/-- Content of a local ScratchPad before `_readMem` fills it.  The C++ array is not
set up by its declaration; `_readMem` assigns all eight entries. -/
def freshScratchPad : ScratchPad := fun _ => 0

/-- Conversion of an integer to the C type int16_t (wrap modulo 2^16). -/
def toInt16 (x : Int) : Int := (x + 32768) % 65536 - 32768

/-- Values of the C type float.  A finite value is carried as an exact rational:
rounding to the binary format is not modelled.  The two infinities and NaN are kept,
with the IEEE 754 rules, so that a division by zero has its C++ outcome.  The sign of
a zero is not kept; the only divisor that can be zero in this driver is a voltage
`(float)0 * 0.01`, a positive zero. -/
inductive FloatVal where
  | num (q : ℚ)
  | inf (negative : Bool)
  | nan
  deriving DecidableEq

namespace FloatVal

/-- Conversion `(float)i` of an integer. -/
def ofInt (i : Int) : FloatVal := num i

/-- Whether the value is a finite number. -/
def isFinite : FloatVal → Bool
  | num _ => true
  | _ => false

/-- Unary minus. -/
def neg : FloatVal → FloatVal
  | num a => num (-a)
  | inf s => inf (!s)
  | nan => nan

/-- Addition. -/
def add : FloatVal → FloatVal → FloatVal
  | num a, num b => num (a + b)
  | num _, inf s => inf s
  | inf s, num _ => inf s
  | inf s, inf t => if s = t then inf s else nan
  | nan, _ => nan
  | _, nan => nan

/-- Subtraction. -/
def sub (a b : FloatVal) : FloatVal := add a (neg b)

/-- Multiplication. -/
def mul : FloatVal → FloatVal → FloatVal
  | num a, num b => num (a * b)
  | num a, inf s => if a = 0 then nan else inf (xor (decide (a < 0)) s)
  | inf s, num b => if b = 0 then nan else inf (xor s (decide (b < 0)))
  | inf s, inf t => inf (xor s t)
  | nan, _ => nan
  | _, nan => nan

/-- Division; a finite non-zero value divided by zero is an infinity, 0/0 is NaN. -/
def div : FloatVal → FloatVal → FloatVal
  | num a, num b =>
      if b = 0 then (if a = 0 then nan else inf (decide (a < 0))) else num (a / b)
  | num _, inf _ => num 0
  | inf s, num b => inf (xor s (decide (b < 0)))
  | inf _, inf _ => nan
  | nan, _ => nan
  | _, nan => nan

/-- Comparison `a < b`; false when either side is NaN. -/
def lt : FloatVal → FloatVal → Bool
  | num a, num b => decide (a < b)
  | num _, inf s => !s
  | inf s, num _ => s
  | inf s, inf t => s && !t
  | nan, _ => false
  | _, nan => false

end FloatVal

namespace ds2438

variable {σ : Type}

/-- Source lines 223-243: recall page 0 from storage, start a scratchpad read at
address 0 and store eight bytes at the eight offsets.  The one-argument calls
`write(v)` of the source use the default power argument 0 of the bus library. -/
def _readMem (H : Host σ) (cmds : Commands) (self : ds2438 σ) (_scratchPad : ScratchPad) :
    ScratchPad × ds2438 σ :=
  let w := H.reset self._wire
  let w := H.select self._deviceAddress w
  let w := H.write cmds.RECALLSCRATCH 0 w
  let w := H.write 0x00 0 w
  let w := H.reset w
  let w := H.select self._deviceAddress w
  let w := H.write cmds.READSCRATCH 0 w
  let w := H.write 0x00 0 w
  let r := H.read w
  let _scratchPad := Function.update _scratchPad STATUS r.1
  let r := H.read r.2
  let _scratchPad := Function.update _scratchPad TEMP_LSB r.1
  let r := H.read r.2
  let _scratchPad := Function.update _scratchPad TEMP_MSB r.1
  let r := H.read r.2
  let _scratchPad := Function.update _scratchPad VOLT_LSB r.1
  let r := H.read r.2
  let _scratchPad := Function.update _scratchPad VOLT_MSB r.1
  let r := H.read r.2
  let _scratchPad := Function.update _scratchPad CURR_LSB r.1
  let r := H.read r.2
  let _scratchPad := Function.update _scratchPad CURR_MSB r.1
  let r := H.read r.2
  let _scratchPad := Function.update _scratchPad THRESH r.1
  (_scratchPad, { self with _wire := r.2 })

/-- Source lines 63-69: read the scratchpad and return its byte 0. -/
def readSetup (H : Host σ) (cmds : Commands) (self : ds2438 σ) : Byte × ds2438 σ :=
  let m := _readMem H cmds self freshScratchPad
  (m.1 0, m.2)

/-- Source line 168: the value of the local int16_t `rawVolt`.  The bytes are
non-negative, the shift and the bitwise or are done on naturals, and the assignment
converts the result to int16_t.  Where int has 16 bits the shift already wraps, to
the same value. -/
def rawVolt (_scratchPad : ScratchPad) : Int :=
  toInt16 (((((_scratchPad VOLT_MSB).val <<< 8) ||| (_scratchPad VOLT_LSB).val : Nat) : Int))

/-- Source line 190: the value of the local int16_t `rawTemp`. -/
def rawTemp (_scratchPad : ScratchPad) : Int :=
  toInt16 (((((_scratchPad TEMP_MSB).val <<< 5) ||| ((_scratchPad TEMP_LSB).val >>> 3) : Nat) : Int))

/-- Source lines 153-171: force the parasite flag to 1, start a voltage conversion,
wait 10 ms, read the scratchpad and scale the signed 16-bit voltage register by 0.01. -/
def readVolt (H : Host σ) (cmds : Commands) (self : ds2438 σ) : FloatVal × ds2438 σ :=
  let self := { self with _parasite := 1 }
  let w := H.reset self._wire
  let w := H.select self._deviceAddress w
  let w := H.write cmds.CONVERTV self._parasite w
  let w := H.delay 10 w
  let m := _readMem H cmds { self with _wire := w } freshScratchPad
  (FloatVal.mul (FloatVal.ofInt (rawVolt m.1)) (FloatVal.num 0.01), m.2)

/-- Source lines 174-193: force the parasite flag to 1, start a temperature conversion,
wait 20 ms, read the scratchpad and scale the 13-bit temperature count by 0.03125. -/
def readTempC (H : Host σ) (cmds : Commands) (self : ds2438 σ) : FloatVal × ds2438 σ :=
  let self := { self with _parasite := 1 }
  let w := H.reset self._wire
  let w := H.select self._deviceAddress w
  let w := H.write cmds.CONVERTT self._parasite w
  let w := H.delay 20 w
  let m := _readMem H cmds { self with _wire := w } freshScratchPad
  (FloatVal.mul (FloatVal.ofInt (rawTemp m.1)) (FloatVal.num 0.03125), m.2)

/-- Source lines 71-80: select input 0x0F and read the source voltage, select input
0x00 and read the sensor voltage, return their quotient.  The results of the two
`writeSetup` calls are dropped. -/
def readAD (H : Host σ) (cmds : Commands) (self : ds2438 σ) : FloatVal × ds2438 σ :=
  let self := (writeSetup H cmds self 0x0F).2
  let r := readVolt H cmds self
  let sourceVolt := r.1
  let self := (writeSetup H cmds r.2 0x00).2
  let r := readVolt H cmds self
  let sensorVolt := r.1
  (FloatVal.div sensorVolt sourceVolt, r.2)

/-- Source lines 103-104: the value the taken branch gives to the variable
`pressureError` that it declares. -/
def branchPressureError (pressure : FloatVal) : FloatVal :=
  if FloatVal.lt (FloatVal.num 15) pressure && FloatVal.lt pressure (FloatVal.num 115)
  then FloatVal.num 1.5 else FloatVal.num 1

/-- Source lines 106-108: the value the taken branch gives to the variable
`tempError` that it declares. -/
def branchTempError (temp : FloatVal) : FloatVal :=
  if FloatVal.lt (FloatVal.num 85) temp then
    FloatVal.add (FloatVal.num 1) (FloatVal.mul temp (FloatVal.num 0.05))
  else if FloatVal.lt temp (FloatVal.num 0) then
    FloatVal.add (FloatVal.num 1)
      (FloatVal.mul (FloatVal.mul (FloatVal.num (-1)) temp) (FloatVal.num 0.05))
  else FloatVal.num 1

/-- Source lines 97-111.  Each `float pressureError = ...` and `float tempError = ...`
of lines 103-108 is a declaration that is the whole body of an if or else branch, so
the variable it declares ends with that branch.  The names `tempError` and
`pressureError` in the return statement of line 110 are therefore not those
variables: nothing in the function binds them.  They are the parameters
`tempError` and `pressureError` here, standing for whatever an enclosing scope
gives them. -/
def calcPressureError (H : Host σ) (cmds : Commands) (self : ds2438 σ)
    (tempError pressureError : FloatVal) (pressure temp : FloatVal) :
    FloatVal × ds2438 σ :=
  let self := (writeSetup H cmds self 0x0F).2
  let r := readVolt H cmds self
  let sourceVolt := r.1
  let _branchLocal₁ := branchPressureError pressure
  let _branchLocal₂ := branchTempError temp
  (FloatVal.mul (FloatVal.mul (FloatVal.mul tempError pressureError) (FloatVal.num 0.009))
    sourceVolt, r.2)

/-- Source lines 113-141: read the temperature, then the source voltage on input
0x0F, then the sensor voltage on input 0x00, and apply the two humidity formulas. -/
def readHum (H : Host σ) (cmds : Commands) (self : ds2438 σ) : FloatVal × ds2438 σ :=
  let r := readTempC H cmds self
  let nowTemp := r.1
  let self := (writeSetup H cmds r.2 0x0F).2
  let r := readVolt H cmds self
  let sourceVolt := r.1
  let self := (writeSetup H cmds r.2 0x00).2
  let r := readVolt H cmds self
  let sensorVolt := r.1
  let stdHum := FloatVal.div (FloatVal.sub (FloatVal.div sensorVolt sourceVolt)
    (FloatVal.num 0.16)) (FloatVal.num 0.0062)
  let trueHum := FloatVal.div stdHum
    (FloatVal.sub (FloatVal.num 1.0546) (FloatVal.mul (FloatVal.num 0.00216) nowTemp))
  (trueHum, r.2)

end ds2438


/-- One call observed on the bus or on the host timer. -/
inductive Event where
  | reset
  | select (addr : Addr)
  | write (v : Byte) (power : Byte)
  | read (v : Byte)
  | delay (ms : Nat)
  deriving DecidableEq

/-- State of the scripted host: the i-th `read()` of a run returns `script i`;
`pos` counts the reads done so far and `trace` lists the calls made so far. -/
structure Scripted where
  script : Nat → Byte
  pos : Nat
  trace : List Event

/-- The scripted host: every call is appended to the trace, reads come from the script. -/
def scriptedHost : Host Scripted where
  reset s := { s with trace := s.trace ++ [Event.reset] }
  select a s := { s with trace := s.trace ++ [Event.select a] }
  write v p s := { s with trace := s.trace ++ [Event.write v p] }
  read s := (s.script s.pos,
    { s with pos := s.pos + 1, trace := s.trace ++ [Event.read (s.script s.pos)] })
  delay ms s := { s with trace := s.trace ++ [Event.delay ms] }

/-- The function commands of a trace: the byte written right after each `select`. -/
def commandsOf : List Event → List Byte
  | [] => []
  | Event.select _ :: Event.write v p :: rest => v :: commandsOf (Event.write v p :: rest)
  | _ :: rest => commandsOf rest

/-- Whether an event is a `delay` call. -/
def Event.isDelay : Event → Bool
  | Event.delay _ => true
  | _ => false

/-- The calls of the write phase and the verify phase of `writeSetup config`, the
verify read returning `back`. -/
def writeVerifyTrace (cmds : Commands) (a : Addr) (config back : Byte) : List Event :=
  [Event.reset, Event.select a, Event.write cmds.WRITESCRATCH 0, Event.write 0 0,
   Event.write config 0,
   Event.reset, Event.select a, Event.write cmds.READSCRATCH 0, Event.write 0 0,
   Event.read back]

/-- The calls of the copy phase of `writeSetup`. -/
def copyTrace (cmds : Commands) (a : Addr) : List Event :=
  [Event.reset, Event.select a, Event.write cmds.COPYSCRATCH 0, Event.write 0 0,
   Event.delay 20]

/-- A script for examples: the reads return the bytes of `l` in order, then 0xFF. -/
def scriptOf (l : List Byte) : Nat → Byte := fun i => l.getD i 0xFF

/-- A driver on a fresh scripted host. -/
def scriptedDriver (l : List Byte) (a : Addr) : ds2438 Scripted :=
  { _wire := { script := scriptOf l, pos := 0, trace := [] }, _deviceAddress := a,
    _parasite := 0 }

/-- Command codes used in examples (the function commands of the DS2438 data sheet). -/
def exampleCommands : Commands :=
  { WRITESCRATCH := 0x4E, READSCRATCH := 0xBE, COPYSCRATCH := 0x48,
    RECALLSCRATCH := 0xB8, CONVERTV := 0xB4, CONVERTT := 0x44 }

/-- The calls of one `writeSetup config` whose verify read returns `back`: the copy
phase is present exactly when `back` equals `config`. -/
def writeSetupTrace (cmds : Commands) (a : Addr) (config back : Byte) : List Event :=
  writeVerifyTrace cmds a config back ++ (if back = config then copyTrace cmds a else [])

/-- The scratchpad that eight reads starting at read number `pos` of a script give. -/
def scratchAt (script : Nat → Byte) (pos : Nat) : ScratchPad := fun i => script (pos + i.val)

/-- The calls of one `_readMem` on the scripted host, its first read being read
number `pos`. -/
def readMemTrace (cmds : Commands) (a : Addr) (script : Nat → Byte) (pos : Nat) :
    List Event :=
  [Event.reset, Event.select a, Event.write cmds.RECALLSCRATCH 0, Event.write 0 0,
   Event.reset, Event.select a, Event.write cmds.READSCRATCH 0, Event.write 0 0,
   Event.read (script pos), Event.read (script (pos + 1)), Event.read (script (pos + 2)),
   Event.read (script (pos + 3)), Event.read (script (pos + 4)),
   Event.read (script (pos + 5)), Event.read (script (pos + 6)),
   Event.read (script (pos + 7))]

/-- The calls of one `readVolt`: conversion start with the power flag 1, a 10 ms
delay, then the scratchpad read. -/
def readVoltTrace (cmds : Commands) (a : Addr) (script : Nat → Byte) (pos : Nat) :
    List Event :=
  [Event.reset, Event.select a, Event.write cmds.CONVERTV 1, Event.delay 10] ++
    readMemTrace cmds a script pos

/-- The calls of one `readTempC`: conversion start with the power flag 1, a 20 ms
delay, then the scratchpad read. -/
def readTempCTrace (cmds : Commands) (a : Addr) (script : Nat → Byte) (pos : Nat) :
    List Event :=
  [Event.reset, Event.select a, Event.write cmds.CONVERTT 1, Event.delay 20] ++
    readMemTrace cmds a script pos

/-- The voltage that `readVolt` decodes from a scratchpad. -/
def voltOf (sp : ScratchPad) : FloatVal :=
  FloatVal.mul (FloatVal.ofInt (ds2438.rawVolt sp)) (FloatVal.num 0.01)

/-- The temperature that `readTempC` decodes from a scratchpad. -/
def tempOf (sp : ScratchPad) : FloatVal :=
  FloatVal.mul (FloatVal.ofInt (ds2438.rawTemp sp)) (FloatVal.num 0.03125)

/-- The four scratchpad commands have pairwise different codes. -/
def Commands.scratchDistinct (cmds : Commands) : Prop :=
  cmds.READSCRATCH ≠ cmds.WRITESCRATCH ∧
  cmds.COPYSCRATCH ≠ cmds.WRITESCRATCH ∧ cmds.COPYSCRATCH ≠ cmds.READSCRATCH ∧
  cmds.RECALLSCRATCH ≠ cmds.WRITESCRATCH ∧ cmds.RECALLSCRATCH ≠ cmds.READSCRATCH ∧
  cmds.RECALLSCRATCH ≠ cmds.COPYSCRATCH

instance (cmds : Commands) : Decidable cmds.scratchDistinct := by
  unfold Commands.scratchDistinct
  infer_instance

/-- A scratchpad command the simulated device has received and whose page byte is
still to come. -/
inductive SimCommand where
  | writeScratch
  | readScratch
  | copyScratch
  | recallScratch
  deriving DecidableEq

/-- Protocol position of the simulated device. -/
inductive SimPhase where
  | idle
  | selected
  | page (c : SimCommand)
  | writing (i : Nat)
  | reading (i : Nat)
  deriving DecidableEq

/-- State of the simulated device of the round-trip property: page 0 of the
scratchpad, its copy in persistent storage, and the protocol position. -/
structure SimDevice where
  scratch : Nat → Byte
  eeprom : Nat → Byte
  phase : SimPhase

/-- The simulated device of the round-trip property, as a host.  After reset and
select the next written byte is a function command and the byte after it a page
number; on page 0, WRITESCRATCH stores the following bytes in the scratchpad from
byte 0 on, READSCRATCH makes the following reads return the scratchpad from byte 0
on, COPYSCRATCH saves the scratchpad to persistent storage and RECALLSCRATCH
restores it from there.  Other commands and other pages leave the device idle; a
read outside a scratchpad read returns 0xFF; delays change nothing. -/
def simHost (cmds : Commands) : Host SimDevice where
  reset d := { d with phase := SimPhase.idle }
  select _ d := { d with phase := SimPhase.selected }
  write v _ d :=
    match d.phase with
    | SimPhase.selected =>
        if v = cmds.WRITESCRATCH then { d with phase := SimPhase.page SimCommand.writeScratch }
        else if v = cmds.READSCRATCH then { d with phase := SimPhase.page SimCommand.readScratch }
        else if v = cmds.COPYSCRATCH then { d with phase := SimPhase.page SimCommand.copyScratch }
        else if v = cmds.RECALLSCRATCH then
          { d with phase := SimPhase.page SimCommand.recallScratch }
        else { d with phase := SimPhase.idle }
    | SimPhase.page c =>
        if v = 0 then
          match c with
          | SimCommand.writeScratch => { d with phase := SimPhase.writing 0 }
          | SimCommand.readScratch => { d with phase := SimPhase.reading 0 }
          | SimCommand.copyScratch => { d with eeprom := d.scratch, phase := SimPhase.idle }
          | SimCommand.recallScratch => { d with scratch := d.eeprom, phase := SimPhase.idle }
        else { d with phase := SimPhase.idle }
    | SimPhase.writing i =>
        { d with scratch := Function.update d.scratch i v, phase := SimPhase.writing (i + 1) }
    | _ => d
  read d :=
    match d.phase with
    | SimPhase.reading i => (d.scratch i, { d with phase := SimPhase.reading (i + 1) })
    | _ => (0xFF, d)
  delay _ d := d

/-- A simulated device with every byte zero, for examples. -/
def blankDevice : SimDevice :=
  { scratch := fun _ => 0, eeprom := fun _ => 0, phase := SimPhase.idle }

/-- Example script: a scratchpad with TEMP_LSB = 0x80, TEMP_MSB = 0x19, VOLT_LSB = 0x2C
and VOLT_MSB = 0x01. -/
def decodeDriver : ds2438 Scripted :=
  scriptedDriver [0xA5, 0x80, 0x19, 0x2C, 0x01, 0, 0, 0] [0x26]

/-- Example script for `readAD`: both verify reads match, the first voltage register
is 0x0000 and the second is 0x012C. -/
def zeroSourceDriver : ds2438 Scripted :=
  scriptedDriver [0x0F, 0, 0, 0, 0, 0, 0, 0, 0, 0x00, 0, 0, 0, 0x2C, 0x01] [0x26]

/-- Example script for `readHum`: temperature register bytes 0x19, 0x80, both verify
reads match, source voltage register 0x01F4 and sensor voltage register 0x012C. -/
def humidityDriver : ds2438 Scripted :=
  scriptedDriver [0, 0x80, 0x19, 0, 0, 0, 0, 0, 0x0F,
    0, 0, 0, 0xF4, 0x01, 0, 0, 0, 0x00, 0, 0, 0, 0x2C, 0x01] [0x26]

/-- Example script for `calcPressureError`: the verify read matches and the voltage
register is 0x01F4, a source voltage of 500 * 0.01 = 5. -/
def fiveVoltDriver : ds2438 Scripted :=
  scriptedDriver [0x0F, 0, 0, 0, 0xF4, 0x01, 0, 0, 0] [0x26]

open ds2438

theorem writeSetup_scripted (cmds : Commands) (self : ds2438 Scripted) (config : Byte) :
    writeSetup scriptedHost cmds self config =
      (decide (self._wire.script self._wire.pos = config),
       { self with _wire :=
          { script := self._wire.script, pos := self._wire.pos + 1,
            trace := self._wire.trace ++
              writeSetupTrace cmds self._deviceAddress config
                (self._wire.script self._wire.pos) } }) := by
  by_cases h : self._wire.script self._wire.pos = config
  · simp [writeSetup, scriptedHost, writeSetupTrace, writeVerifyTrace, copyTrace, h]
  · simp [writeSetup, scriptedHost, writeSetupTrace, writeVerifyTrace, h]

theorem readMem_scripted (cmds : Commands) (self : ds2438 Scripted) (buf : ScratchPad) :
    _readMem scriptedHost cmds self buf =
      (scratchAt self._wire.script self._wire.pos,
       { self with _wire :=
          { script := self._wire.script, pos := self._wire.pos + 8,
            trace := self._wire.trace ++
              readMemTrace cmds self._deviceAddress self._wire.script self._wire.pos } }) := by
  have hsp : ∀ i : Fin 8,
      Function.update (Function.update (Function.update (Function.update
        (Function.update (Function.update (Function.update (Function.update buf
          STATUS (self._wire.script self._wire.pos))
          TEMP_LSB (self._wire.script (self._wire.pos + 1)))
          TEMP_MSB (self._wire.script (self._wire.pos + 2)))
          VOLT_LSB (self._wire.script (self._wire.pos + 3)))
          VOLT_MSB (self._wire.script (self._wire.pos + 4)))
          CURR_LSB (self._wire.script (self._wire.pos + 5)))
          CURR_MSB (self._wire.script (self._wire.pos + 6)))
          THRESH (self._wire.script (self._wire.pos + 7)) i
        = scratchAt self._wire.script self._wire.pos i := by
    intro i
    fin_cases i <;>
      simp [Function.update, scratchAt, STATUS, TEMP_LSB, TEMP_MSB, VOLT_LSB, VOLT_MSB,
        CURR_LSB, CURR_MSB, THRESH]
  simp only [_readMem, scriptedHost, readMemTrace]
  refine Prod.ext (funext hsp) ?_
  simp [Nat.add_assoc]

theorem readVolt_scripted (cmds : Commands) (self : ds2438 Scripted) :
    readVolt scriptedHost cmds self =
      (voltOf (scratchAt self._wire.script self._wire.pos),
       { _wire :=
          { script := self._wire.script, pos := self._wire.pos + 8,
            trace := self._wire.trace ++
              readVoltTrace cmds self._deviceAddress self._wire.script self._wire.pos },
         _deviceAddress := self._deviceAddress, _parasite := 1 }) := by
  simp only [readVolt, readMem_scripted]
  simp [voltOf, readVoltTrace, scriptedHost]

theorem readTempC_scripted (cmds : Commands) (self : ds2438 Scripted) :
    readTempC scriptedHost cmds self =
      (tempOf (scratchAt self._wire.script self._wire.pos),
       { _wire :=
          { script := self._wire.script, pos := self._wire.pos + 8,
            trace := self._wire.trace ++
              readTempCTrace cmds self._deviceAddress self._wire.script self._wire.pos },
         _deviceAddress := self._deviceAddress, _parasite := 1 }) := by
  simp only [readTempC, readMem_scripted]
  simp [tempOf, readTempCTrace, scriptedHost]

/-- C1: on the scripted host, when the verify read returns the byte `c` that was
written, `writeSetup c` returns true, and the calls it makes are the write phase, the
verify phase ending in the read of `c`, then reset, select, COPYSCRATCH, 0x00 and a
20 ms delay, in this order and nothing else. -/
theorem writeSetup_echo_succeeds (cmds : Commands) (self : ds2438 Scripted) (c : Byte)
    (hback : self._wire.script self._wire.pos = c) :
    (writeSetup scriptedHost cmds self c).1 = true ∧
    (writeSetup scriptedHost cmds self c).2._wire.trace =
      self._wire.trace ++
        [Event.reset, Event.select self._deviceAddress,
         Event.write cmds.WRITESCRATCH 0, Event.write 0 0, Event.write c 0,
         Event.reset, Event.select self._deviceAddress,
         Event.write cmds.READSCRATCH 0, Event.write 0 0, Event.read c,
         Event.reset, Event.select self._deviceAddress,
         Event.write cmds.COPYSCRATCH 0, Event.write 0 0, Event.delay 20] := by
  simp [writeSetup_scripted, writeSetupTrace, writeVerifyTrace, copyTrace, hback]

theorem writeSetup_echo_succeeds_witness :
    (scriptedDriver [0x0F] [0x26])._wire.script (scriptedDriver [0x0F] [0x26])._wire.pos = 0x0F ∧
    (writeSetup scriptedHost exampleCommands (scriptedDriver [0x0F] [0x26]) 0x0F).1 = true ∧
    (writeSetup scriptedHost exampleCommands (scriptedDriver [0x0F] [0x26]) 0x0F).2._wire.trace =
      (scriptedDriver [0x0F] [0x26])._wire.trace ++
        [Event.reset, Event.select [0x26],
         Event.write 0x4E 0, Event.write 0 0, Event.write 0x0F 0,
         Event.reset, Event.select [0x26],
         Event.write 0xBE 0, Event.write 0 0, Event.read 0x0F,
         Event.reset, Event.select [0x26],
         Event.write 0x48 0, Event.write 0 0, Event.delay 20] :=
  ⟨by decide, writeSetup_echo_succeeds exampleCommands (scriptedDriver [0x0F] [0x26]) 0x0F
    (by decide)⟩

/-- C2: on the scripted host, when `c1` is written and the verify read returns a
different byte `c2`, `writeSetup c1` returns false and makes only the calls of the
write phase and of the verify phase; given that COPYSCRATCH differs from WRITESCRATCH
and READSCRATCH, no function command of that trace is COPYSCRATCH, and no call of it
is a delay. -/
theorem writeSetup_mismatch_fails (cmds : Commands) (self : ds2438 Scripted) (c1 c2 : Byte)
    (hne : c1 ≠ c2) (hback : self._wire.script self._wire.pos = c2)
    (hcopy : cmds.COPYSCRATCH ≠ cmds.WRITESCRATCH ∧ cmds.COPYSCRATCH ≠ cmds.READSCRATCH) :
    (writeSetup scriptedHost cmds self c1).1 = false ∧
    (writeSetup scriptedHost cmds self c1).2._wire.trace =
      self._wire.trace ++ writeVerifyTrace cmds self._deviceAddress c1 c2 ∧
    commandsOf (writeVerifyTrace cmds self._deviceAddress c1 c2) =
      [cmds.WRITESCRATCH, cmds.READSCRATCH] ∧
    cmds.COPYSCRATCH ∉ commandsOf (writeVerifyTrace cmds self._deviceAddress c1 c2) ∧
    ∀ e ∈ writeVerifyTrace cmds self._deviceAddress c1 c2, e.isDelay = false := by
  have hne2 : ¬ c2 = c1 := fun h => hne h.symm
  refine ⟨?_, ?_, ?_, ?_, ?_⟩
  · simp [writeSetup_scripted, hback, hne2]
  · simp [writeSetup_scripted, writeSetupTrace, hback, hne2]
  · simp [writeVerifyTrace, commandsOf]
  · simp [writeVerifyTrace, commandsOf, hcopy.1, hcopy.2]
  · simp [writeVerifyTrace, Event.isDelay]

theorem writeSetup_mismatch_fails_witness :
    ((0x0F : Byte) ≠ 0x48 ∧
     (scriptedDriver [0x48] [0x26])._wire.script (scriptedDriver [0x48] [0x26])._wire.pos = 0x48 ∧
     exampleCommands.COPYSCRATCH ≠ exampleCommands.WRITESCRATCH ∧
     exampleCommands.COPYSCRATCH ≠ exampleCommands.READSCRATCH) ∧
    (writeSetup scriptedHost exampleCommands (scriptedDriver [0x48] [0x26]) 0x0F).1 = false ∧
    (writeSetup scriptedHost exampleCommands (scriptedDriver [0x48] [0x26]) 0x0F).2._wire.trace =
      (scriptedDriver [0x48] [0x26])._wire.trace ++
        writeVerifyTrace exampleCommands [0x26] 0x0F 0x48 ∧
    commandsOf (writeVerifyTrace exampleCommands [0x26] 0x0F 0x48) = [0x4E, 0xBE] ∧
    exampleCommands.COPYSCRATCH ∉ commandsOf (writeVerifyTrace exampleCommands [0x26] 0x0F 0x48) ∧
    ∀ e ∈ writeVerifyTrace exampleCommands [0x26] 0x0F 0x48, e.isDelay = false :=
  ⟨⟨by decide, by decide, by decide, by decide⟩,
   writeSetup_mismatch_fails exampleCommands (scriptedDriver [0x48] [0x26]) 0x0F 0x48
    (by decide) (by decide) (by decide)⟩

theorem shl_or_eq (m l k : Nat) (h : l < 2 ^ k) : (m <<< k) ||| l = 2 ^ k * m + l := by
  rw [Nat.shiftLeft_eq, Nat.mul_comm, ← Nat.mul_add_lt_is_or h]

theorem rawVolt_eq (sp : ScratchPad) :
    rawVolt sp =
      if (sp VOLT_MSB).val < 0x80 then (256 * (sp VOLT_MSB).val + (sp VOLT_LSB).val : Int)
      else 256 * (sp VOLT_MSB).val + (sp VOLT_LSB).val - 65536 := by
  have hm := (sp VOLT_MSB).isLt
  have hl := (sp VOLT_LSB).isLt
  have h := shl_or_eq (sp VOLT_MSB).val (sp VOLT_LSB).val 8 (by omega)
  unfold rawVolt toInt16
  rw [h]
  split_ifs with hlt <;> push_cast <;> omega

theorem rawTemp_eq (sp : ScratchPad) :
    rawTemp sp = (32 * (sp TEMP_MSB).val + (sp TEMP_LSB).val / 8 : Nat) := by
  have hm := (sp TEMP_MSB).isLt
  have hl := (sp TEMP_LSB).isLt
  have hl8 : (sp TEMP_LSB).val >>> 3 = (sp TEMP_LSB).val / 8 := by
    rw [Nat.shiftRight_eq_div_pow]
  have h := shl_or_eq (sp TEMP_MSB).val ((sp TEMP_LSB).val >>> 3) 5 (by rw [hl8]; omega)
  unfold rawTemp toInt16
  rw [h, hl8]
  push_cast
  omega

theorem voltOf_eq (sp : ScratchPad) :
    voltOf sp = FloatVal.num ((rawVolt sp : ℚ) * 0.01) := by
  simp [voltOf, FloatVal.ofInt, FloatVal.mul]

theorem tempOf_eq (sp : ScratchPad) :
    tempOf sp = FloatVal.num ((rawTemp sp : ℚ) * 0.03125) := by
  simp [tempOf, FloatVal.ofInt, FloatVal.mul]

theorem voltOf_012C (sp : ScratchPad) (hmsb : sp VOLT_MSB = 0x01) (hlsb : sp VOLT_LSB = 0x2C) :
    rawVolt sp = 300 ∧ voltOf sp = FloatVal.num 3 := by
  have hr : rawVolt sp = 300 := by
    rw [rawVolt_eq, hmsb, hlsb]
    decide
  refine ⟨hr, ?_⟩
  rw [voltOf_eq, hr]
  norm_num

theorem tempOf_1980 (sp : ScratchPad) (hmsb : sp TEMP_MSB = 0x19) (hlsb : sp TEMP_LSB = 0x80) :
    rawTemp sp = 816 ∧ tempOf sp = FloatVal.num 25.5 := by
  have hr : rawTemp sp = 816 := by
    rw [rawTemp_eq, hmsb, hlsb]
    decide
  refine ⟨hr, ?_⟩
  rw [tempOf_eq, hr]
  norm_num

/-- C3 (amended): on the scripted host, when the scratchpad read of `readVolt` yields
VOLT_MSB = 0x01 and VOLT_LSB = 0x2C, the raw count is 0x012C = 300 and `readVolt`
returns 300 * 0.01 = 3. -/
theorem readVolt_012C_is_3 (cmds : Commands) (self : ds2438 Scripted)
    (hmsb : self._wire.script (self._wire.pos + 4) = 0x01)
    (hlsb : self._wire.script (self._wire.pos + 3) = 0x2C) :
    rawVolt (scratchAt self._wire.script self._wire.pos) = 300 ∧
    (readVolt scriptedHost cmds self).1 = FloatVal.num 3 := by
  rw [readVolt_scripted]
  exact voltOf_012C _ hmsb hlsb

theorem readVolt_012C_is_3_witness :
    (decodeDriver._wire.script (decodeDriver._wire.pos + 4) = 0x01 ∧
     decodeDriver._wire.script (decodeDriver._wire.pos + 3) = 0x2C) ∧
    rawVolt (scratchAt decodeDriver._wire.script decodeDriver._wire.pos) = 300 ∧
    (readVolt scriptedHost exampleCommands decodeDriver).1 = FloatVal.num 3 :=
  ⟨⟨by decide, by decide⟩,
   readVolt_012C_is_3 exampleCommands decodeDriver (by decide) (by decide)⟩

/-- C3 (counterexample): with a script whose scratchpad read yields VOLT_MSB = 0x01 and
VOLT_LSB = 0x2C, `readVolt` does not return 2.96. -/
theorem readVolt_012C_not_2_96 :
    scriptOf [0, 0, 0, 0x2C, 0x01, 0, 0, 0] 4 = 0x01 ∧
    scriptOf [0, 0, 0, 0x2C, 0x01, 0, 0, 0] 3 = 0x2C ∧
    (readVolt scriptedHost exampleCommands
      (scriptedDriver [0, 0, 0, 0x2C, 0x01, 0, 0, 0] [0x26])).1 ≠ FloatVal.num 2.96 := by
  refine ⟨by decide, by decide, ?_⟩
  rw [readVolt_scripted, (voltOf_012C _ (by decide) (by decide)).2]
  intro h
  injection h with h
  norm_num at h

/-- C4 (amended): on the scripted host, when the scratchpad read of `readTempC` yields
TEMP_MSB = 0x19 and TEMP_LSB = 0x80, the raw count (0x19 << 5) | (0x80 >> 3) is 816
and `readTempC` returns 816 * 0.03125 = 25.5. -/
theorem readTempC_1980_is_25_5 (cmds : Commands) (self : ds2438 Scripted)
    (hmsb : self._wire.script (self._wire.pos + 2) = 0x19)
    (hlsb : self._wire.script (self._wire.pos + 1) = 0x80) :
    rawTemp (scratchAt self._wire.script self._wire.pos) = 816 ∧
    (readTempC scriptedHost cmds self).1 = FloatVal.num 25.5 := by
  rw [readTempC_scripted]
  exact tempOf_1980 _ hmsb hlsb

theorem readTempC_1980_is_25_5_witness :
    (decodeDriver._wire.script (decodeDriver._wire.pos + 2) = 0x19 ∧
     decodeDriver._wire.script (decodeDriver._wire.pos + 1) = 0x80) ∧
    rawTemp (scratchAt decodeDriver._wire.script decodeDriver._wire.pos) = 816 ∧
    (readTempC scriptedHost exampleCommands decodeDriver).1 = FloatVal.num 25.5 :=
  ⟨⟨by decide, by decide⟩,
   readTempC_1980_is_25_5 exampleCommands decodeDriver (by decide) (by decide)⟩

/-- C4 (counterexample): with a script whose scratchpad read yields TEMP_MSB = 0x19 and
TEMP_LSB = 0x80, the raw count of `readTempC` is not 800 and the result is not 25.0. -/
theorem readTempC_1980_not_25 :
    scriptOf [0, 0x80, 0x19, 0, 0, 0, 0, 0] 2 = 0x19 ∧
    scriptOf [0, 0x80, 0x19, 0, 0, 0, 0, 0] 1 = 0x80 ∧
    rawTemp (scratchAt (scriptOf [0, 0x80, 0x19, 0, 0, 0, 0, 0]) 0) ≠ 800 ∧
    (readTempC scriptedHost exampleCommands
      (scriptedDriver [0, 0x80, 0x19, 0, 0, 0, 0, 0] [0x26])).1 ≠ FloatVal.num 25.0 := by
  refine ⟨by decide, by decide, ?_, ?_⟩
  · rw [(tempOf_1980 _ (by decide) (by decide)).1]
    decide
  · rw [readTempC_scripted, (tempOf_1980 _ (by decide) (by decide)).2]
    intro h
    injection h with h
    norm_num at h

theorem lt_num (a b : ℚ) : FloatVal.lt (FloatVal.num a) (FloatVal.num b) = decide (a < b) := rfl

theorem scratchAt_temp_msb (script : Nat → Byte) (pos : Nat) :
    scratchAt script pos TEMP_MSB = script (pos + 2) := rfl

theorem scratchAt_temp_lsb (script : Nat → Byte) (pos : Nat) :
    scratchAt script pos TEMP_LSB = script (pos + 1) := rfl

theorem scratchAt_volt_msb (script : Nat → Byte) (pos : Nat) :
    scratchAt script pos VOLT_MSB = script (pos + 4) := rfl

theorem scratchAt_volt_lsb (script : Nat → Byte) (pos : Nat) :
    scratchAt script pos VOLT_LSB = script (pos + 3) := rfl

/-- C9: for every script, the raw count that `readTempC` decodes from the bytes
TEMP_MSB and TEMP_LSB it reads is 32 * TEMP_MSB + TEMP_LSB / 8 (integer division), it
lies in 0..8191, the result is that count times 0.03125 and is never below zero; the
register bytes 0xFF, 0xF8 decode to 8191 * 0.03125 = 255.96875. -/
theorem readTempC_never_negative (cmds : Commands) (self : ds2438 Scripted) :
    rawTemp (scratchAt self._wire.script self._wire.pos) =
      ((32 * (self._wire.script (self._wire.pos + 2)).val +
        (self._wire.script (self._wire.pos + 1)).val / 8 : Nat) : Int) ∧
    0 ≤ rawTemp (scratchAt self._wire.script self._wire.pos) ∧
    rawTemp (scratchAt self._wire.script self._wire.pos) ≤ 8191 ∧
    (readTempC scriptedHost cmds self).1 =
      FloatVal.num ((rawTemp (scratchAt self._wire.script self._wire.pos) : ℚ) * 0.03125) ∧
    FloatVal.lt (readTempC scriptedHost cmds self).1 (FloatVal.num 0) = false ∧
    (readTempC scriptedHost exampleCommands (scriptedDriver [0, 0xF8, 0xFF] [0x26])).1 =
      FloatVal.num 255.96875 := by
  have hraw := rawTemp_eq (scratchAt self._wire.script self._wire.pos)
  have hm := (self._wire.script (self._wire.pos + 2)).isLt
  have hl := (self._wire.script (self._wire.pos + 1)).isLt
  rw [scratchAt_temp_msb, scratchAt_temp_lsb] at hraw
  have h0 : 0 ≤ rawTemp (scratchAt self._wire.script self._wire.pos) := by
    rw [hraw]; omega
  have h1 : rawTemp (scratchAt self._wire.script self._wire.pos) ≤ 8191 := by
    rw [hraw]; omega
  refine ⟨hraw, h0, h1, ?_, ?_, ?_⟩
  · rw [readTempC_scripted, tempOf_eq]
  · rw [readTempC_scripted, tempOf_eq, lt_num]
    have hq : (0 : ℚ) ≤ (rawTemp (scratchAt self._wire.script self._wire.pos) : ℚ) := by
      exact_mod_cast h0
    have hpos : (0 : ℚ) ≤ (rawTemp (scratchAt self._wire.script self._wire.pos) : ℚ) * 0.03125 :=
      mul_nonneg hq (by norm_num)
    exact decide_eq_false (not_lt.mpr hpos)
  · rw [readTempC_scripted, tempOf_eq]
    have hr : rawTemp (scratchAt (scriptedDriver [0, 0xF8, 0xFF] [0x26])._wire.script
        (scriptedDriver [0, 0xF8, 0xFF] [0x26])._wire.pos) = 8191 := by
      rw [rawTemp_eq]
      decide
    rw [hr]
    norm_num

/-- C10: for every script, `readVolt` reads the register bytes VOLT_MSB, VOLT_LSB as
a signed 16-bit integer: the result is 0.01 * (256 * VOLT_MSB + VOLT_LSB) when
VOLT_MSB < 0x80 and 0.01 * (256 * VOLT_MSB + VOLT_LSB - 65536) otherwise, and it is
below zero exactly when the top bit of VOLT_MSB is set. -/
theorem readVolt_signed_register (cmds : Commands) (self : ds2438 Scripted) :
    (readVolt scriptedHost cmds self).1 =
      (if (self._wire.script (self._wire.pos + 4)).val < 0x80 then
        FloatVal.num (0.01 * (256 * ((self._wire.script (self._wire.pos + 4)).val : ℚ) +
          ((self._wire.script (self._wire.pos + 3)).val : ℚ)))
      else
        FloatVal.num (0.01 * (256 * ((self._wire.script (self._wire.pos + 4)).val : ℚ) +
          ((self._wire.script (self._wire.pos + 3)).val : ℚ) - 65536))) ∧
    FloatVal.lt (readVolt scriptedHost cmds self).1 (FloatVal.num 0) =
      decide (0x80 ≤ (self._wire.script (self._wire.pos + 4)).val) := by
  have hm := (self._wire.script (self._wire.pos + 4)).isLt
  have hl := (self._wire.script (self._wire.pos + 3)).isLt
  have hraw := rawVolt_eq (scratchAt self._wire.script self._wire.pos)
  rw [scratchAt_volt_msb, scratchAt_volt_lsb] at hraw
  rw [readVolt_scripted, voltOf_eq, lt_num, hraw]
  generalize (self._wire.script (self._wire.pos + 4)).val = m at hm ⊢
  generalize (self._wire.script (self._wire.pos + 3)).val = l at hl ⊢
  by_cases hlt : m < 0x80
  · have hge : ¬ (0x80 ≤ m) := by omega
    rw [if_pos hlt, if_pos hlt, decide_eq_false hge]
    refine ⟨?_, ?_⟩
    · have hc : (((256 * (m : Int) + (l : Int) : Int)) : ℚ) = 256 * (m : ℚ) + (l : ℚ) := by
        push_cast; ring
      rw [hc, mul_comm]
    · have hq : (0 : ℚ) ≤ ((256 * (m : Int) + (l : Int) : Int) : ℚ) := by
        have : (0 : Int) ≤ 256 * (m : Int) + (l : Int) := by omega
        exact_mod_cast this
      exact decide_eq_false (not_lt.mpr (mul_nonneg hq (by norm_num)))
  · have hge : 0x80 ≤ m := by omega
    rw [if_neg hlt, if_neg hlt, decide_eq_true hge]
    refine ⟨?_, ?_⟩
    · have hc : (((256 * (m : Int) + (l : Int) - 65536 : Int)) : ℚ) =
          256 * (m : ℚ) + (l : ℚ) - 65536 := by
        push_cast; ring
      rw [hc, mul_comm]
    · have hneg : (256 * (m : Int) + (l : Int) - 65536) < 0 := by omega
      have hq : (((256 * (m : Int) + (l : Int) - 65536 : Int)) : ℚ) < 0 := by
        exact_mod_cast hneg
      exact decide_eq_true (mul_neg_of_neg_of_pos hq (by norm_num))

/-- C5: on the simulated device, whose four scratchpad commands have pairwise
different codes, for every device state and every configuration byte `c`,
`writeSetup c` returns true and the `readSetup` that follows returns `c`. -/
theorem readSetup_after_writeSetup (cmds : Commands) (self : ds2438 SimDevice) (c : Byte)
    (hd : cmds.scratchDistinct) :
    (writeSetup (simHost cmds) cmds self c).1 = true ∧
    (readSetup (simHost cmds) cmds (writeSetup (simHost cmds) cmds self c).2).1 = c := by
  obtain ⟨h1, h2, h3, h4, h5, h6⟩ := hd
  constructor
  · simp [writeSetup, simHost, h1]
  · simp [writeSetup, readSetup, _readMem, simHost, h1, h2, h3, h4, h5, h6, STATUS,
      TEMP_LSB, TEMP_MSB, VOLT_LSB, VOLT_MSB, CURR_LSB, CURR_MSB, THRESH]

theorem readSetup_after_writeSetup_witness :
    exampleCommands.scratchDistinct ∧
    (writeSetup (simHost exampleCommands) exampleCommands
      { _wire := blankDevice, _deviceAddress := [0x26], _parasite := 0 } 0x0F).1 = true ∧
    (readSetup (simHost exampleCommands) exampleCommands
      (writeSetup (simHost exampleCommands) exampleCommands
        { _wire := blankDevice, _deviceAddress := [0x26], _parasite := 0 } 0x0F).2).1 = 0x0F :=
  ⟨by decide, readSetup_after_writeSetup exampleCommands
    { _wire := blankDevice, _deviceAddress := [0x26], _parasite := 0 } 0x0F (by decide)⟩

theorem readAD_scripted (cmds : Commands) (self : ds2438 Scripted) :
    readAD scriptedHost cmds self =
      (FloatVal.div (voltOf (scratchAt self._wire.script (self._wire.pos + 10)))
        (voltOf (scratchAt self._wire.script (self._wire.pos + 1))),
       { _wire :=
          { script := self._wire.script, pos := self._wire.pos + 18,
            trace := self._wire.trace ++
              (writeSetupTrace cmds self._deviceAddress 0x0F
                  (self._wire.script self._wire.pos) ++
               readVoltTrace cmds self._deviceAddress self._wire.script (self._wire.pos + 1) ++
               writeSetupTrace cmds self._deviceAddress 0x00
                  (self._wire.script (self._wire.pos + 9)) ++
               readVoltTrace cmds self._deviceAddress self._wire.script
                  (self._wire.pos + 10)) },
         _deviceAddress := self._deviceAddress, _parasite := 1 }) := by
  simp only [readAD, writeSetup_scripted, readVolt_scripted]
  simp [Nat.add_assoc]

theorem div_zero_not_finite (x : FloatVal) : (FloatVal.div x (FloatVal.num 0)).isFinite = false := by
  cases x with
  | num a => by_cases h : a = 0 <;> simp [FloatVal.div, FloatVal.isFinite, h]
  | inf s => simp [FloatVal.div, FloatVal.isFinite]
  | nan => simp [FloatVal.div, FloatVal.isFinite]

theorem one_ne_zero_byte : ¬ ((1 : Byte) = 0) := by decide

theorem count_convert_writeSetupTrace (cmds : Commands) (a : Addr) (v config back : Byte) :
    List.count (Event.write v 1) (writeSetupTrace cmds a config back) = 0 := by
  rw [List.count_eq_zero]
  unfold writeSetupTrace writeVerifyTrace copyTrace
  split_ifs <;> simp [one_ne_zero_byte]

theorem count_convert_readMemTrace (cmds : Commands) (a : Addr) (v : Byte)
    (script : Nat → Byte) (pos : Nat) :
    List.count (Event.write v 1) (readMemTrace cmds a script pos) = 0 := by
  rw [List.count_eq_zero]
  unfold readMemTrace
  simp [one_ne_zero_byte]

theorem count_convertV_readVoltTrace (cmds : Commands) (a : Addr)
    (script : Nat → Byte) (pos : Nat) :
    List.count (Event.write cmds.CONVERTV 1) (readVoltTrace cmds a script pos) = 1 := by
  unfold readVoltTrace
  rw [List.count_append, count_convert_readMemTrace]
  rw [List.count_cons, List.count_cons, List.count_cons, List.count_cons, List.count_nil]
  simp

/-- C6: for every script, whatever the two verify reads return, `readAD` makes the
calls of `writeSetup 0x0F`, of one voltage conversion and read, of `writeSetup 0x00`
and of a second voltage conversion and read, in this order and nothing else; exactly
two of these calls start a voltage conversion; the result is the second decoded
voltage divided by the first; and when the first decoded voltage is 0 the result is
not a finite number. -/
theorem readAD_two_phases (cmds : Commands) (self : ds2438 Scripted) :
    (readAD scriptedHost cmds self).2._wire.trace =
      self._wire.trace ++
        (writeSetupTrace cmds self._deviceAddress 0x0F (self._wire.script self._wire.pos) ++
         readVoltTrace cmds self._deviceAddress self._wire.script (self._wire.pos + 1) ++
         writeSetupTrace cmds self._deviceAddress 0x00
            (self._wire.script (self._wire.pos + 9)) ++
         readVoltTrace cmds self._deviceAddress self._wire.script (self._wire.pos + 10)) ∧
    List.count (Event.write cmds.CONVERTV 1)
        (writeSetupTrace cmds self._deviceAddress 0x0F (self._wire.script self._wire.pos) ++
         readVoltTrace cmds self._deviceAddress self._wire.script (self._wire.pos + 1) ++
         writeSetupTrace cmds self._deviceAddress 0x00
            (self._wire.script (self._wire.pos + 9)) ++
         readVoltTrace cmds self._deviceAddress self._wire.script (self._wire.pos + 10)) = 2 ∧
    (readAD scriptedHost cmds self).1 =
      FloatVal.div (voltOf (scratchAt self._wire.script (self._wire.pos + 10)))
        (voltOf (scratchAt self._wire.script (self._wire.pos + 1))) ∧
    (voltOf (scratchAt self._wire.script (self._wire.pos + 1)) = FloatVal.num 0 →
      (readAD scriptedHost cmds self).1.isFinite = false) := by
  rw [readAD_scripted]
  refine ⟨rfl, ?_, rfl, ?_⟩
  · simp only [List.count_append, count_convert_writeSetupTrace, count_convertV_readVoltTrace]
  · intro h0
    simp only [h0]
    exact div_zero_not_finite _

theorem zeroSource_volt :
    voltOf (scratchAt zeroSourceDriver._wire.script (zeroSourceDriver._wire.pos + 1)) =
      FloatVal.num 0 := by
  have hr : rawVolt (scratchAt zeroSourceDriver._wire.script
      (zeroSourceDriver._wire.pos + 1)) = 0 := by
    rw [rawVolt_eq]
    decide
  rw [voltOf_eq, hr]
  norm_num

theorem readAD_two_phases_witness :
    voltOf (scratchAt zeroSourceDriver._wire.script (zeroSourceDriver._wire.pos + 1)) =
      FloatVal.num 0 ∧
    (readAD scriptedHost exampleCommands zeroSourceDriver).1.isFinite = false :=
  ⟨zeroSource_volt,
   (readAD_two_phases exampleCommands zeroSourceDriver).2.2.2 zeroSource_volt⟩

theorem sub_num (a b : ℚ) :
    FloatVal.sub (FloatVal.num a) (FloatVal.num b) = FloatVal.num (a - b) := by
  simp [FloatVal.sub, FloatVal.add, FloatVal.neg, sub_eq_add_neg]

theorem mul_num (a b : ℚ) :
    FloatVal.mul (FloatVal.num a) (FloatVal.num b) = FloatVal.num (a * b) := rfl

theorem div_num (a b : ℚ) (hb : b ≠ 0) :
    FloatVal.div (FloatVal.num a) (FloatVal.num b) = FloatVal.num (a / b) := by
  simp [FloatVal.div, hb]

theorem rawTemp_bounds (sp : ScratchPad) : 0 ≤ rawTemp sp ∧ rawTemp sp ≤ 8191 := by
  have hm := (sp TEMP_MSB).isLt
  have hl := (sp TEMP_LSB).isLt
  rw [rawTemp_eq]
  omega

theorem humidity_divisor_pos (sp : ScratchPad) :
    (0 : ℚ) < 1.0546 - 0.00216 * ((rawTemp sp : ℚ) * 0.03125) := by
  obtain ⟨h0, h1⟩ := rawTemp_bounds sp
  have h0q : (0 : ℚ) ≤ (rawTemp sp : ℚ) := by exact_mod_cast h0
  have h1q : (rawTemp sp : ℚ) ≤ 8191 := by exact_mod_cast h1
  norm_num
  linarith

theorem readHum_scripted (cmds : Commands) (self : ds2438 Scripted) :
    readHum scriptedHost cmds self =
      (FloatVal.div
        (FloatVal.div
          (FloatVal.sub
            (FloatVal.div (voltOf (scratchAt self._wire.script (self._wire.pos + 18)))
              (voltOf (scratchAt self._wire.script (self._wire.pos + 9))))
            (FloatVal.num 0.16))
          (FloatVal.num 0.0062))
        (FloatVal.sub (FloatVal.num 1.0546)
          (FloatVal.mul (FloatVal.num 0.00216)
            (tempOf (scratchAt self._wire.script self._wire.pos)))),
       { _wire :=
          { script := self._wire.script, pos := self._wire.pos + 26,
            trace := self._wire.trace ++
              (readTempCTrace cmds self._deviceAddress self._wire.script self._wire.pos ++
               writeSetupTrace cmds self._deviceAddress 0x0F
                  (self._wire.script (self._wire.pos + 8)) ++
               readVoltTrace cmds self._deviceAddress self._wire.script (self._wire.pos + 9) ++
               writeSetupTrace cmds self._deviceAddress 0x00
                  (self._wire.script (self._wire.pos + 17)) ++
               readVoltTrace cmds self._deviceAddress self._wire.script
                  (self._wire.pos + 18)) },
         _deviceAddress := self._deviceAddress, _parasite := 1 }) := by
  simp only [readHum, readTempC_scripted, writeSetup_scripted, readVolt_scripted]
  simp [Nat.add_assoc]

/-- C8: for every script, `readHum` makes the calls of one temperature conversion and
read, then of `writeSetup 0x0F` and a voltage conversion and read (the source
voltage), then of `writeSetup 0x00` and a voltage conversion and read (the sensor
voltage), in this order and nothing else, and returns
(((sensorVolt / sourceVolt) - 0.16) / 0.0062) / (1.0546 - 0.00216 * tempC) of the three
decoded values; when the source count is not zero this is the finite number that the
same formula gives on the rationals. -/
theorem readHum_order_and_formula (cmds : Commands) (self : ds2438 Scripted) :
    (readHum scriptedHost cmds self).2._wire.trace =
      self._wire.trace ++
        (readTempCTrace cmds self._deviceAddress self._wire.script self._wire.pos ++
         writeSetupTrace cmds self._deviceAddress 0x0F
            (self._wire.script (self._wire.pos + 8)) ++
         readVoltTrace cmds self._deviceAddress self._wire.script (self._wire.pos + 9) ++
         writeSetupTrace cmds self._deviceAddress 0x00
            (self._wire.script (self._wire.pos + 17)) ++
         readVoltTrace cmds self._deviceAddress self._wire.script (self._wire.pos + 18)) ∧
    (readHum scriptedHost cmds self).1 =
      FloatVal.div
        (FloatVal.div
          (FloatVal.sub
            (FloatVal.div (voltOf (scratchAt self._wire.script (self._wire.pos + 18)))
              (voltOf (scratchAt self._wire.script (self._wire.pos + 9))))
            (FloatVal.num 0.16))
          (FloatVal.num 0.0062))
        (FloatVal.sub (FloatVal.num 1.0546)
          (FloatVal.mul (FloatVal.num 0.00216)
            (tempOf (scratchAt self._wire.script self._wire.pos)))) ∧
    (rawVolt (scratchAt self._wire.script (self._wire.pos + 9)) ≠ 0 →
      (readHum scriptedHost cmds self).1 =
        FloatVal.num
          (((((rawVolt (scratchAt self._wire.script (self._wire.pos + 18)) : ℚ) * 0.01) /
              ((rawVolt (scratchAt self._wire.script (self._wire.pos + 9)) : ℚ) * 0.01)
              - 0.16) / 0.0062) /
            (1.0546 - 0.00216 *
              ((rawTemp (scratchAt self._wire.script self._wire.pos) : ℚ) * 0.03125)))) := by
  rw [readHum_scripted]
  refine ⟨rfl, rfl, ?_⟩
  intro hsrc
  have hsrcq : ((rawVolt (scratchAt self._wire.script (self._wire.pos + 9)) : ℚ) * 0.01) ≠ 0 := by
    have : (rawVolt (scratchAt self._wire.script (self._wire.pos + 9)) : ℚ) ≠ 0 := by
      exact_mod_cast hsrc
    exact mul_ne_zero this (by norm_num)
  have hdiv := ne_of_gt (humidity_divisor_pos (scratchAt self._wire.script self._wire.pos))
  simp only [voltOf_eq, tempOf_eq]
  rw [div_num _ _ hsrcq, sub_num, div_num _ _ (by norm_num), mul_num, sub_num,
    div_num _ _ hdiv]

theorem humidity_counts :
    rawVolt (scratchAt humidityDriver._wire.script (humidityDriver._wire.pos + 9)) = 500 ∧
    rawVolt (scratchAt humidityDriver._wire.script (humidityDriver._wire.pos + 18)) = 300 ∧
    rawTemp (scratchAt humidityDriver._wire.script humidityDriver._wire.pos) = 816 := by
  refine ⟨?_, ?_, ?_⟩
  · rw [rawVolt_eq]; decide
  · rw [rawVolt_eq]; decide
  · rw [rawTemp_eq]; decide

theorem readHum_order_and_formula_witness :
    rawVolt (scratchAt humidityDriver._wire.script (humidityDriver._wire.pos + 9)) ≠ 0 ∧
    (readHum scriptedHost exampleCommands humidityDriver).1 =
      FloatVal.num (13750000 / 193657) := by
  have hsrc : rawVolt (scratchAt humidityDriver._wire.script
      (humidityDriver._wire.pos + 9)) ≠ 0 := by
    rw [humidity_counts.1]; decide
  refine ⟨hsrc, ?_⟩
  rw [(readHum_order_and_formula exampleCommands humidityDriver).2.2 hsrc,
    humidity_counts.1, humidity_counts.2.1, humidity_counts.2.2]
  norm_num

theorem fiveVolt_source :
    voltOf (scratchAt fiveVoltDriver._wire.script (fiveVoltDriver._wire.pos + 1)) =
      FloatVal.num 5 := by
  have hr : rawVolt (scratchAt fiveVoltDriver._wire.script
      (fiveVoltDriver._wire.pos + 1)) = 500 := by
    rw [rawVolt_eq]
    decide
  rw [voltOf_eq, hr]
  norm_num

theorem calcPressureError_scripted (cmds : Commands) (self : ds2438 Scripted)
    (tempError pressureError pressure temp : FloatVal) :
    (calcPressureError scriptedHost cmds self tempError pressureError pressure temp).1 =
      FloatVal.mul (FloatVal.mul (FloatVal.mul tempError pressureError) (FloatVal.num 0.009))
        (voltOf (scratchAt self._wire.script (self._wire.pos + 1))) := by
  simp only [calcPressureError, writeSetup_scripted, readVolt_scripted]

/-- C7 (the code at the failing inputs): the branches of lines 103-108 do select the
values of the claim (1 at pressure 15 and at pressure 115, 1.5 at pressure 50, 1 at
temperature 20), but with a source voltage of 5 the value returned for pressure 15
and the value returned for pressure 50 are the same, whatever the names `tempError`
and `pressureError` of the return statement stand for; so the two results are not
1 * 1 * 0.009 * 5 = 0.045 and 1 * 1.5 * 0.009 * 5 = 0.0675. -/
theorem calcPressureError_drops_branch_values (tempError pressureError : FloatVal) :
    branchPressureError (FloatVal.num 15) = FloatVal.num 1 ∧
    branchPressureError (FloatVal.num 115) = FloatVal.num 1 ∧
    branchPressureError (FloatVal.num 50) = FloatVal.num 1.5 ∧
    branchTempError (FloatVal.num 20) = FloatVal.num 1 ∧
    (calcPressureError scriptedHost exampleCommands fiveVoltDriver tempError pressureError
        (FloatVal.num 15) (FloatVal.num 20)).1 =
      (calcPressureError scriptedHost exampleCommands fiveVoltDriver tempError pressureError
        (FloatVal.num 50) (FloatVal.num 20)).1 ∧
    ¬ ((calcPressureError scriptedHost exampleCommands fiveVoltDriver tempError pressureError
          (FloatVal.num 15) (FloatVal.num 20)).1 = FloatVal.num 0.045 ∧
       (calcPressureError scriptedHost exampleCommands fiveVoltDriver tempError pressureError
          (FloatVal.num 50) (FloatVal.num 20)).1 = FloatVal.num 0.0675) := by
  refine ⟨?_, ?_, ?_, ?_, rfl, ?_⟩
  · simp [branchPressureError, FloatVal.lt]
  · simp [branchPressureError, FloatVal.lt]
  · simp [branchPressureError, FloatVal.lt]
    norm_num
  · simp [branchTempError, FloatVal.lt]
    norm_num
  · rw [calcPressureError_scripted, calcPressureError_scripted]
    rintro ⟨h1, h2⟩
    rw [h1] at h2
    injection h2 with h2
    norm_num at h2
